import Mathlib

/-!
Verification of the rgy Game Boy emulator core against its specification.

The development shallowly embeds the two orchestration sources:
`core/src/system.rs` (the `System` step loop, handler registration and
configuration) and `core/src/sound.rs` (the sound register bank).  The
remaining components (CPU, GPU, MMU dispatch internals, ...) live in
modules that are not part of these sources; where a claim needs their
behaviour it is either abstracted as an opaque parameter or, for the bus
dispatch contract, modelled from the specification (such definitions are
marked `Modelled from the spec`).
-/

namespace Rgy

/-- Result of a bus-read handler.  The variants are the ones used by
sound.rs and described by the bus contract of the spec (section 4.2):
`Replace b` supplies the byte, `PassThrough` defers. -/
inductive MemRead where
  | Replace (b : Nat)
  | PassThrough
deriving DecidableEq

/-- Result of a bus-write handler: `Block` vetoes the store to backing
RAM, `PassThrough` lets it proceed. -/
inductive MemWrite where
  | Block
  | PassThrough
deriving DecidableEq

/-- Whether a write result is the `Block` veto. -/
def MemWrite.isBlock : MemWrite → Bool
  | MemWrite.Block => true
  | MemWrite.PassThrough => false

/-- Wave duty of a tone channel (sound.rs `WaveDuty`). -/
inductive WaveDuty where
  | P125
  | P250
  | P500
  | P750
deriving DecidableEq

/-- `impl From<u8> for WaveDuty` (sound.rs): values 0-3 map to the four
duties; the source marks larger values unreachable (its only call site
passes `value >> 6` of a byte, which is below 4). -/
def WaveDuty.ofU8 (v : Nat) : WaveDuty :=
  if v = 0 then WaveDuty.P125
  else if v = 1 then WaveDuty.P250
  else if v = 2 then WaveDuty.P500
  else WaveDuty.P750

/-- Channel-1 descriptor (sound.rs `Tone`).  `usize` fields become `Nat`,
`bool` fields become `Bool`. -/
structure Tone where
  sweep_time : Nat
  sweep_sub : Bool
  sweep_shift : Nat
  sound_len : Nat
  wave_duty : WaveDuty
  env_init : Nat
  env_inc : Bool
  env_count : Nat
  counter : Bool
  freq : Nat
deriving DecidableEq

/-- A call made on the external `Speaker` collaborator.  `play` carries the
channel state from which `play_tone1` builds the stream closure (the
floating-point sample generation inside the closure is outside the core's
contract per the spec). -/
inductive SoundEv where
  | play (t : Tone)
  | stop
deriving DecidableEq

/-- Bitwise complement on a 64-bit `usize` (`!mask` in the source). -/
def usizeNot (m : Nat) : Nat := (2 ^ 64 - 1) ^^^ m

/-- The initial channel state of `Inner::new` (sound.rs 81-96). -/
def tone0 : Tone :=
  { sweep_time := 0
    sweep_sub := false
    sweep_shift := 0
    sound_len := 0
    wave_duty := WaveDuty.P125
    env_init := 0
    env_inc := false
    env_count := 0
    counter := false
    freq := 0 }

/-- `Inner::on_read` (sound.rs 98-100): always pass through. -/
def Inner.on_read (_tone : Tone) (_addr : Nat) : MemRead :=
  MemRead.PassThrough

/-- `Inner::on_write` (sound.rs 102-126).  Returns the updated channel
state, the list of speaker calls made, and the handler's write verdict.
The unused `&Mmu` argument of the source is omitted; `value` is a byte. -/
def Inner.on_write (tone : Tone) (addr value : Nat) : Tone × List SoundEv × MemWrite :=
  if addr = 0xff10 then
    ({ tone with
        sweep_time := (value >>> 4) &&& 0x7
        sweep_sub := value &&& 0x08 != 0
        sweep_shift := value &&& 0x07 },
     [], MemWrite.Block)
  else if addr = 0xff11 then
    ({ tone with
        wave_duty := WaveDuty.ofU8 (value >>> 6)
        sound_len := value &&& 0x3f },
     [], MemWrite.Block)
  else if addr = 0xff12 then
    ({ tone with
        env_init := value >>> 4
        env_inc := value &&& 0x08 != 0
        env_count := value &&& 0x7 },
     [], MemWrite.Block)
  else if addr = 0xff13 then
    ({ tone with freq := (tone.freq &&& usizeNot 0xff) ||| value }, [], MemWrite.Block)
  else if addr = 0xff14 then
    let t :=
      { tone with
          counter := value &&& 0x40 != 0
          freq := (tone.freq &&& usizeNot 0x700) ||| ((value &&& 0x7) <<< 8) }
    if value &&& 0x80 != 0 then
      (t, [SoundEv.play t], MemWrite.Block)
    else
      (t, [], MemWrite.Block)
  else
    (tone, [], MemWrite.Block)

/-- Tags for the components whose handlers `System::new` registers. -/
inductive HTag where
  | dbg
  | cgb
  | mbc
  | sound
  | dma
  | gpu
  | ic
  | joypad
  | timer
  | serial
deriving DecidableEq

/-- The `mmu.add_handler` calls of `System::new` (system.rs 115-137), as
`(inclusive_lo, inclusive_hi, component)` in registration order. -/
def handlers : List (Nat × Nat × HTag) :=
  [ (0x0000, 0xffff, HTag.dbg),
    (0xc000, 0xdfff, HTag.cgb),
    (0xff4d, 0xff4d, HTag.cgb),
    (0xff56, 0xff56, HTag.cgb),
    (0xff70, 0xff70, HTag.cgb),
    (0x0000, 0x7fff, HTag.mbc),
    (0xff50, 0xff50, HTag.mbc),
    (0xa000, 0xbfff, HTag.mbc),
    (0xff10, 0xff3f, HTag.sound),
    (0xff46, 0xff46, HTag.dma),
    (0x8000, 0x9fff, HTag.gpu),
    (0xff40, 0xff55, HTag.gpu),
    (0xff68, 0xff6b, HTag.gpu),
    (0xff0f, 0xff0f, HTag.ic),
    (0xffff, 0xffff, HTag.ic),
    (0xff00, 0xff00, HTag.joypad),
    (0xff04, 0xff07, HTag.timer),
    (0xff01, 0xff02, HTag.serial) ]

/-- Whether a registered range contains the address (ranges are
inclusive on both ends). -/
def inRange (addr : Nat) (h : Nat × Nat × HTag) : Bool :=
  decide (h.1 ≤ addr ∧ addr ≤ h.2.1)

/-- Modelled from the spec: on a bus access, the handlers whose range
contains the address are consulted in registration order (the `Mmu`
dispatch lives in mmu.rs, which is not among the sources; section 4.2
of the spec gives this contract). -/
def consulted (addr : Nat) : List HTag :=
  (handlers.filter (inRange addr)).map (fun h => h.2.2)

/-- Bus state as needed by the sound-range claims: the backing RAM and
the sound handler's internal state plus the speaker calls it has made. -/
structure BusSt where
  ram : Nat → Nat
  tone : Tone
  events : List SoundEv

/-- One handler's observation of a write.  The debugger passes through
(modelled from the spec: the debugger handler "must default to
PassThrough"); the sound handler is `Inner.on_write`; the behaviour of
the components whose sources are not included is supplied by `other`. -/
def handlerVote (other : HTag → Nat → Nat → MemWrite) (s : BusSt) (tag : HTag)
    (addr value : Nat) : BusSt × MemWrite :=
  match tag with
  | HTag.dbg => (s, MemWrite.PassThrough)
  | HTag.sound =>
    let r := Inner.on_write s.tone addr value
    ({ s with tone := r.1, events := s.events ++ r.2.1 }, r.2.2)
  | t => (s, other t addr value)

/-- Modelled from the spec (section 4.2): every handler whose range
contains the address observes the write, in registration order; the byte
is stored into backing RAM only if no handler returned `Block`. -/
def write8 (other : HTag → Nat → Nat → MemWrite) (s : BusSt) (addr value : Nat) : BusSt :=
  let go := fun (acc : BusSt × Bool) (tag : HTag) =>
    let r := handlerVote other acc.1 tag addr value
    (r.1, acc.2 || r.2.isBlock)
  let r := (consulted addr).foldl go (s, false)
  if r.2 then r.1
  else { r.1 with ram := fun a => if a = addr then value else r.1.ram a }

/-- One handler's answer to a read: the debugger passes through (modelled
from the spec), the sound handler is `Inner.on_read`, unknown components
are supplied by `otherR`. -/
def handlerRead (otherR : HTag → Nat → MemRead) (s : BusSt) (tag : HTag)
    (addr : Nat) : MemRead :=
  match tag with
  | HTag.dbg => MemRead.PassThrough
  | HTag.sound => Inner.on_read s.tone addr
  | t => otherR t addr

/-- First `Replace` answer among the consulted handlers, if any. -/
def readDispatch (otherR : HTag → Nat → MemRead) (s : BusSt) (addr : Nat) :
    List HTag → Option Nat
  | [] => none
  | t :: ts =>
    match handlerRead otherR s t addr with
    | MemRead.Replace b => some b
    | MemRead.PassThrough => readDispatch otherR s addr ts

/-- Modelled from the spec (section 4.2): reads consult handlers in
registration order; the first handler returning `Replace(b)` supplies the
byte, otherwise backing RAM at the address is returned. -/
def read8 (otherR : HTag → Nat → MemRead) (s : BusSt) (addr : Nat) : Nat :=
  (readDispatch otherR s addr (consulted addr)).getD (s.ram addr)

/-- Emulator configuration (system.rs `Config`). -/
structure Config where
  freq : Nat
  sample : Nat
  delay_unit : Nat
  native_speed : Bool

/-- `Config::new` (system.rs 35-43). -/
def Config.new : Config :=
  { freq := 4194300
    sample := 4194300 / 1000
    delay_unit := 10
    native_speed := false }

/-- `Config::native_speed` builder (system.rs 64-67). -/
def Config.set_native_speed (cfg : Config) (native : Bool) : Config :=
  { cfg with native_speed := native }

/-- The state owned by `System` (system.rs 71-84): the CPU, the MMU and
each peripheral device.  The components' internal representations live in
modules outside these sources, so each is abstracted as an opaque `Nat`. -/
structure SysSt where
  cpu : Nat
  mmu : Nat
  ic : Nat
  gpu : Nat
  joypad : Nat
  timer : Nat
  serial : Nat
  dma : Nat
  dbg : Nat
  fc : Nat
deriving DecidableEq

/-- The behaviour of the components `System::step` invokes, abstracted as
functions on the opaque component states.  The shapes mirror the source
call sites exactly: `cpu_execute` returns the consumed cycles with the
updated CPU and MMU; `check_interrupt` returns the extra cycles with the
updated CPU, MMU and interrupt controller; `dma_step` receives only the
DMA state and the MMU (no cycle count appears at its call site); the GPU,
timer and serial steps receive the cycle count. -/
structure Comps where
  check_signal : Nat → Nat
  take_cpu_snapshot : Nat → Nat → Nat
  on_decode : Nat → Nat → Nat
  cpu_execute : Nat → Nat → Nat × Nat × Nat
  check_interrupt : Nat → Nat → Nat → Nat × Nat × Nat × Nat
  dma_step : Nat → Nat → Nat × Nat
  gpu_step : Nat → Nat → Nat → Nat × Nat
  timer_step : Nat → Nat → Nat
  serial_step : Nat → Nat → Nat
  joypad_poll : Nat → Nat
  fc_adjust : Nat → Nat → Nat

/-- One invocation made by `System::step`, with the cycle argument where
the call site passes one. -/
inductive Ev where
  | check_signal
  | take_cpu_snapshot
  | on_decode
  | cpu_execute
  | check_interrupt
  | dma_step
  | gpu_step (time : Nat)
  | timer_step (time : Nat)
  | serial_step (time : Nat)
  | joypad_poll
  | fc_adjust (time : Nat)
deriving DecidableEq

/-- Whether an invocation is the GPU advance. -/
def Ev.isGpu : Ev → Bool
  | Ev.gpu_step _ => true
  | _ => false

/-- `System::step` (system.rs 163-188): debugger hooks, CPU execute,
interrupt check, DMA advance, GPU advance (when enabled), timer, serial,
joypad poll, and the frequency adjust (unless `native_speed`).  Besides
the successor state it returns the sequence of invocations made. -/
def System.step (c : Comps) (cfg : Config) (s : SysSt) (gpu_enabled : Bool) :
    SysSt × List Ev :=
  let dbg1 := c.check_signal s.dbg
  let dbg2 := c.take_cpu_snapshot dbg1 s.cpu
  let dbg3 := c.on_decode dbg2 s.mmu
  let e := c.cpu_execute s.cpu s.mmu
  let i := c.check_interrupt e.2.1 e.2.2 s.ic
  let time := e.1 + i.1
  let d := c.dma_step s.dma i.2.2.1
  let g := if gpu_enabled then c.gpu_step time s.gpu d.2 else (s.gpu, d.2)
  let timer1 := c.timer_step time s.timer
  let serial1 := c.serial_step time s.serial
  let joypad1 := c.joypad_poll s.joypad
  let fc1 := if !cfg.native_speed then c.fc_adjust time s.fc else s.fc
  ({ cpu := i.2.1
     mmu := g.2
     ic := i.2.2.2
     gpu := g.1
     joypad := joypad1
     timer := timer1
     serial := serial1
     dma := d.1
     dbg := dbg3
     fc := fc1 },
   [Ev.check_signal, Ev.take_cpu_snapshot, Ev.on_decode, Ev.cpu_execute,
    Ev.check_interrupt, Ev.dma_step]
   ++ (if gpu_enabled then [Ev.gpu_step time] else [])
   ++ [Ev.timer_step time, Ev.serial_step time, Ev.joypad_poll]
   ++ (if !cfg.native_speed then [Ev.fc_adjust time] else []))

/-- The cycle count of one step: the cycles of `cpu.execute` plus the
extra cycles of `cpu.check_interrupt` (system.rs 171-173). -/
def stepTime (c : Comps) (s : SysSt) : Nat :=
  let e := c.cpu_execute s.cpu s.mmu
  e.1 + (c.check_interrupt e.2.1 e.2.2 s.ic).1

/-- The MMU value after the CPU execute and interrupt check, which is
what the DMA advance receives. -/
def mmuAfterInterrupt (c : Comps) (s : SysSt) : Nat :=
  let e := c.cpu_execute s.cpu s.mmu
  (c.check_interrupt e.2.1 e.2.2 s.ic).2.2.1

/-- `System::poll` (system.rs 193-202); `sched` is the value the hardware
scheduler hook returns on this call. -/
def System.poll (c : Comps) (cfg : Config) (s : SysSt) (sched : Bool)
    (gpu_enabled : Bool) : Bool × SysSt :=
  if !sched then (false, s)
  else (true, (System.step c cfg s gpu_enabled).1)

/-- The `while sys.poll(true) {}` loop of `run_inner` (system.rs 235-238),
driven by the finite list of values the scheduler hook returns; besides
the final state it counts the emulation steps performed. -/
def run_loop (c : Comps) (cfg : Config) : List Bool → SysSt → SysSt × Nat
  | [], s => (s, 0)
  | b :: rest, s =>
    match System.poll c cfg s b true with
    | (false, s1) => (s1, 0)
    | (true, s1) =>
      let r := run_loop c cfg rest s1
      (r.1, r.2 + 1)

/-- `n` successive emulation steps (with the GPU enabled, as `run_inner`
calls `poll`). -/
def stepN (c : Comps) (cfg : Config) : Nat → SysSt → SysSt
  | 0, s => s
  | n + 1, s => stepN c cfg n (System.step c cfg s true).1

/-- Concrete component behaviours for counterexamples and witnesses: the
CPU consumes 4 cycles, the interrupt check 0; the DMA advance bumps its
state by one; GPU, timer, serial and the pacer accumulate the cycle
argument. -/
def compsBase : Comps :=
  { check_signal := fun d => d
    take_cpu_snapshot := fun d _ => d
    on_decode := fun d _ => d
    cpu_execute := fun cpu mmu => (4, cpu, mmu)
    check_interrupt := fun cpu mmu ic => (0, cpu, mmu, ic)
    dma_step := fun dma mmu => (dma + 1, mmu)
    gpu_step := fun t gpu mmu => (gpu + t, mmu)
    timer_step := fun t timer => timer + t
    serial_step := fun t serial => serial + t
    joypad_poll := fun j => j
    fc_adjust := fun t f => f + t }

/-- Like `compsBase` but the CPU reports 8 cycles instead of 4; every
other behaviour, the DMA advance included, is identical. -/
def compsFast : Comps :=
  { compsBase with cpu_execute := fun cpu mmu => (8, cpu, mmu) }

/-- An all-zero system state. -/
def s0sys : SysSt :=
  { cpu := 0, mmu := 0, ic := 0, gpu := 0, joypad := 0, timer := 0,
    serial := 0, dma := 0, dbg := 0, fc := 0 }

/-- Pass-through write behaviour for the components whose sources are not
included. -/
def noOther : HTag → Nat → Nat → MemWrite := fun _ _ _ => MemWrite.PassThrough

/-- Pass-through read behaviour for the components whose sources are not
included. -/
def noOtherR : HTag → Nat → MemRead := fun _ _ => MemRead.PassThrough

/-- A bus state with zeroed RAM and the initial sound state. -/
def busSt0 : BusSt :=
  { ram := fun _ => 0, tone := tone0, events := [] }

/-- `Inner::on_write` ends in `MemWrite::Block` on every path. -/
theorem Inner.on_write_blocks (t : Tone) (a v : Nat) :
    (Inner.on_write t a v).2.2 = MemWrite.Block := by
  unfold Inner.on_write
  split_ifs <;> rfl

/-- C1: within one emulation step the invocations occur in exactly the
documented order — debugger hooks, CPU execute, interrupt check, DMA
advance, GPU advance (when enabled), timer, serial, joypad poll,
frequency adjust (unless native speed) — and in particular the DMA
advance precedes the GPU advance of the same step. -/
theorem step_order (c : Comps) (cfg : Config) (s : SysSt) (ge : Bool) :
    (System.step c cfg s ge).2 =
      [Ev.check_signal, Ev.take_cpu_snapshot, Ev.on_decode, Ev.cpu_execute,
       Ev.check_interrupt, Ev.dma_step]
      ++ (if ge then [Ev.gpu_step (stepTime c s)] else [])
      ++ [Ev.timer_step (stepTime c s), Ev.serial_step (stepTime c s), Ev.joypad_poll]
      ++ (if !cfg.native_speed then [Ev.fc_adjust (stepTime c s)] else []) ∧
    List.Sublist [Ev.dma_step, Ev.gpu_step (stepTime c s)]
      (System.step c cfg s true).2 := by
  constructor
  · rfl
  · have h1 : List.Sublist [Ev.dma_step]
        [Ev.check_signal, Ev.take_cpu_snapshot, Ev.on_decode, Ev.cpu_execute,
         Ev.check_interrupt, Ev.dma_step] := by
      simp [List.singleton_sublist]
    have h2 : List.Sublist [Ev.gpu_step (stepTime c s)]
        ([Ev.gpu_step (stepTime c s)]
          ++ ([Ev.timer_step (stepTime c s), Ev.serial_step (stepTime c s), Ev.joypad_poll]
              ++ (if !cfg.native_speed then [Ev.fc_adjust (stepTime c s)] else []))) :=
      List.sublist_append_left _ _
    have h3 := List.Sublist.append h1 h2
    simpa [System.step, stepTime, List.append_assoc] using h3

/-- C2 counterexample: two runs whose CPU cycle counts differ (4 versus 8)
leave the DMA in the same state even though the two DMA behaviours are the
same function, while the timer — which does receive the count — differs:
the orchestrator does not pass the cycle count to the DMA advance
(`self.dma.borrow_mut().step(&mut mmu)`, system.rs 175). -/
theorem dma_not_advanced_by_count :
    stepTime compsBase s0sys = 4 ∧
    stepTime compsFast s0sys = 8 ∧
    compsBase.dma_step = compsFast.dma_step ∧
    (System.step compsBase Config.new s0sys true).1.dma
      = (System.step compsFast Config.new s0sys true).1.dma ∧
    (System.step compsBase Config.new s0sys true).1.timer
      ≠ (System.step compsFast Config.new s0sys true).1.timer := by
  refine ⟨rfl, rfl, rfl, rfl, ?_⟩
  decide

/-- C2 amended: after the CPU returns its cycle count (instruction cycles
plus interrupt-check cycles), the orchestrator advances GPU, timer and
serial each by that same count; the DMA is advanced exactly once per
step, but its advance receives only the MMU, not the cycle count. -/
theorem step_advances_peripherals (c : Comps) (cfg : Config) (s : SysSt) :
    Ev.gpu_step (stepTime c s) ∈ (System.step c cfg s true).2 ∧
    Ev.timer_step (stepTime c s) ∈ (System.step c cfg s true).2 ∧
    Ev.serial_step (stepTime c s) ∈ (System.step c cfg s true).2 ∧
    Ev.dma_step ∈ (System.step c cfg s true).2 ∧
    (System.step c cfg s true).1.timer = c.timer_step (stepTime c s) s.timer ∧
    (System.step c cfg s true).1.serial = c.serial_step (stepTime c s) s.serial ∧
    (System.step c cfg s true).1.dma = (c.dma_step s.dma (mmuAfterInterrupt c s)).1 := by
  refine ⟨?_, ?_, ?_, ?_, rfl, rfl, rfl⟩ <;>
    simp [System.step, stepTime]

/-- C7: `poll` returns `false` exactly when the scheduler hook returned
`false`, and then no emulation step runs and the state — CPU, MMU and all
peripherals — is returned unchanged; the `run_inner` loop performs one
step per `true` answer and stops at the first `false`. -/
theorem poll_cancellation (c : Comps) (cfg : Config) (s : SysSt) (ge : Bool)
    (n : Nat) (rest : List Bool) :
    System.poll c cfg s false ge = (false, s) ∧
    System.poll c cfg s true ge = (true, (System.step c cfg s ge).1) ∧
    run_loop c cfg (List.replicate n true ++ false :: rest) s
      = (stepN c cfg n s, n) := by
  refine ⟨rfl, rfl, ?_⟩
  induction n generalizing s with
  | zero => rfl
  | succ k ih =>
    simp only [List.replicate, List.cons_append, run_loop, System.poll, stepN]
    simp [ih]

/-- C8: with `native_speed` set, the frequency controller is never
invoked and its state is untouched; without it, every step invokes the
frequency adjust with the step's cycle count. -/
theorem native_speed_pacing (c : Comps) (cfg : Config) (s : SysSt) (ge : Bool) :
    (cfg.native_speed = true →
      (System.step c cfg s ge).1.fc = s.fc ∧
      ∀ t, Ev.fc_adjust t ∉ (System.step c cfg s ge).2) ∧
    (cfg.native_speed = false →
      (System.step c cfg s ge).1.fc = c.fc_adjust (stepTime c s) s.fc ∧
      Ev.fc_adjust (stepTime c s) ∈ (System.step c cfg s ge).2) := by
  constructor
  · intro h
    constructor
    · simp [System.step, h]
    · intro t
      cases ge <;> simp [System.step, h]
  · intro h
    constructor
    · simp [System.step, stepTime, h]
    · cases ge <;> simp [System.step, stepTime, h]

/-- Closed instance of `native_speed_pacing`: with `native_speed` set the
pacer state is untouched by a step. -/
theorem native_speed_pacing_witness :
    (System.step compsBase (Config.new.set_native_speed true) s0sys true).1.fc
      = s0sys.fc :=
  ((native_speed_pacing compsBase (Config.new.set_native_speed true) s0sys true).1
    rfl).1

/-- C10: with `gpu_enabled = false` the step skips exactly the GPU
advance: the invocation sequence is that of the enabled step with the GPU
advance filtered out, the GPU state is untouched, and every other
component ends in the same state as in the enabled step. -/
theorem gpu_disabled_skips_only_gpu (c : Comps) (cfg : Config) (s : SysSt) :
    (System.step c cfg s false).2
      = ((System.step c cfg s true).2).filter (fun e => !e.isGpu) ∧
    (System.step c cfg s false).1.gpu = s.gpu ∧
    (System.step c cfg s false).1.cpu = (System.step c cfg s true).1.cpu ∧
    (System.step c cfg s false).1.ic = (System.step c cfg s true).1.ic ∧
    (System.step c cfg s false).1.dbg = (System.step c cfg s true).1.dbg ∧
    (System.step c cfg s false).1.dma = (System.step c cfg s true).1.dma ∧
    (System.step c cfg s false).1.timer = (System.step c cfg s true).1.timer ∧
    (System.step c cfg s false).1.serial = (System.step c cfg s true).1.serial ∧
    (System.step c cfg s false).1.joypad = (System.step c cfg s true).1.joypad ∧
    (System.step c cfg s false).1.fc = (System.step c cfg s true).1.fc := by
  refine ⟨?_, rfl, rfl, rfl, rfl, rfl, rfl, rfl, rfl, rfl⟩
  cases h : cfg.native_speed <;>
    simp [System.step, Ev.isGpu, h, List.filter_append]

/-- C3 counterexample: a trigger write (bit 7 set) to channel 2's NR24 at
0xFF19 makes no speaker call, while the same trigger to channel 1's NR14
at 0xFF14 does: the claim's "every channel's NRx4" fails at 0xFF19. -/
theorem trigger_ff19_no_play :
    (Inner.on_write tone0 0xff19 0x80).2.1 = [] ∧
    (Inner.on_write tone0 0xff14 0x80).2.1 ≠ [] := by
  decide

/-- C3 amended: only a write to channel 1's NR14 (0xFF14) with bit 7 set
builds the envelope/frequency descriptor — from the just-updated
channel-1 state — and submits it through `play`; trigger writes to
NR24/NR34/NR44 (0xFF19, 0xFF1E, 0xFF23) make no speaker call, and `stop`
is never invoked by any register write. -/
theorem trigger_play_amended (t : Tone) (v a w : Nat) (hbit : v &&& 0x80 ≠ 0) :
    (Inner.on_write t 0xff14 v).2.1
      = [SoundEv.play
          { t with
              counter := v &&& 0x40 != 0
              freq := (t.freq &&& usizeNot 0x700) ||| ((v &&& 0x7) <<< 8) }] ∧
    (Inner.on_write t 0xff19 v).2.1 = [] ∧
    (Inner.on_write t 0xff1e v).2.1 = [] ∧
    (Inner.on_write t 0xff23 v).2.1 = [] ∧
    SoundEv.stop ∉ (Inner.on_write t a w).2.1 := by
  refine ⟨?_, by simp [Inner.on_write], by simp [Inner.on_write],
          by simp [Inner.on_write], ?_⟩
  · simp [Inner.on_write, hbit]
  · unfold Inner.on_write
    split_ifs <;> simp

/-- Closed instance of `trigger_play_amended` at the initial state and
value 0x80. -/
theorem trigger_play_amended_witness :
    SoundEv.stop ∉ (Inner.on_write tone0 0xff10 0).2.1 :=
  (trigger_play_amended tone0 0x80 0xff10 0 (by decide)).2.2.2.2

/-- C4 counterexample: a write to channel 2's duty/length register 0xFF16
leaves the sound state unchanged, whereas the layout-identical write to
channel 1's 0xFF11 decodes it: registers of channels 2-4 are not decoded
into any descriptor. -/
theorem ff16_not_decoded :
    (Inner.on_write tone0 0xff16 0xff).1 = tone0 ∧
    (Inner.on_write tone0 0xff11 0xff).1 ≠ tone0 := by
  decide

/-- C4 amended: only channel 1's registers 0xFF10-0xFF14 are decoded, all
into the single tone descriptor, per the standard layout; every other
write in 0xFF10-0xFF3F leaves the descriptor unchanged and makes no
speaker call. -/
theorem sound_decode_amended (t : Tone) (a v : Nat)
    (h1 : 0xff15 ≤ a) (h2 : a ≤ 0xff3f) :
    (Inner.on_write t a v).1 = t ∧
    (Inner.on_write t a v).2.1 = [] ∧
    (Inner.on_write t 0xff10 v).1
      = { t with
            sweep_time := (v >>> 4) &&& 0x7
            sweep_sub := v &&& 0x08 != 0
            sweep_shift := v &&& 0x07 } ∧
    (Inner.on_write t 0xff11 v).1
      = { t with
            wave_duty := WaveDuty.ofU8 (v >>> 6)
            sound_len := v &&& 0x3f } ∧
    (Inner.on_write t 0xff12 v).1
      = { t with
            env_init := v >>> 4
            env_inc := v &&& 0x08 != 0
            env_count := v &&& 0x7 } ∧
    (Inner.on_write t 0xff13 v).1
      = { t with freq := (t.freq &&& usizeNot 0xff) ||| v } ∧
    (Inner.on_write t 0xff14 v).1
      = { t with
            counter := v &&& 0x40 != 0
            freq := (t.freq &&& usizeNot 0x700) ||| ((v &&& 0x7) <<< 8) } := by
  have n0 : a ≠ 0xff10 := by omega
  have n1 : a ≠ 0xff11 := by omega
  have n2 : a ≠ 0xff12 := by omega
  have n3 : a ≠ 0xff13 := by omega
  have n4 : a ≠ 0xff14 := by omega
  refine ⟨?_, ?_, ?_, ?_, ?_, ?_, ?_⟩ <;>
    (simp [Inner.on_write, n0, n1, n2, n3, n4]; try (split <;> rfl))

/-- Closed instance of `sound_decode_amended` at 0xFF20. -/
theorem sound_decode_amended_witness :
    (Inner.on_write tone0 0xff20 0x12).1 = tone0 :=
  (sound_decode_amended tone0 0xff20 0x12 (by decide) (by decide)).1

/-- C5 counterexample: neither the OAM range 0xFE00-0xFE9F nor the
claimed register range 0xFF40-0xFF4B is registered for the GPU; an OAM
access at 0xFE00 consults only the debugger's catch-all, while 0xFF50 —
outside the claimed register range — is handled by the GPU. -/
theorem gpu_ranges_counterexample :
    (0xfe00, 0xfe9f, HTag.gpu) ∉ handlers ∧
    (0xff40, 0xff4b, HTag.gpu) ∉ handlers ∧
    consulted 0xfe00 = [HTag.dbg] ∧
    HTag.gpu ∈ consulted 0xff50 := by
  decide

/-- C5 amended: the GPU is registered for exactly 0x8000-0x9FFF (VRAM),
0xFF40-0xFF55 and 0xFF68-0xFF6B; the OAM range 0xFE00-0xFE9F is not
routed to the GPU — an access there consults only the debugger's
catch-all and otherwise hits backing RAM. -/
theorem gpu_ranges_amended (a : Nat) (h1 : 0xfe00 ≤ a) (h2 : a ≤ 0xfe9f) :
    handlers.filter (fun h => decide (h.2.2 = HTag.gpu))
      = [(0x8000, 0x9fff, HTag.gpu), (0xff40, 0xff55, HTag.gpu),
         (0xff68, 0xff6b, HTag.gpu)] ∧
    consulted a = [HTag.dbg] := by
  constructor
  · decide
  · interval_cases a <;> decide

/-- Closed instance of `gpu_ranges_amended` at OAM address 0xFE00. -/
theorem gpu_ranges_amended_witness :
    consulted 0xfe00 = [HTag.dbg] :=
  (gpu_ranges_amended 0xfe00 (by decide) (by decide)).2

/-- C6: the debugger's catch-all range (0x0000, 0xFFFF) is the first
handler `System::new` registers, so on a bus access at any address the
debugger is consulted first. -/
theorem debugger_first (addr : Nat) (h : addr ≤ 0xffff) :
    handlers.head? = some (0x0000, 0xffff, HTag.dbg) ∧
    (consulted addr).head? = some HTag.dbg := by
  refine ⟨rfl, ?_⟩
  simp [consulted, handlers, inRange, List.filter_cons, h]

/-- Closed instance of `debugger_first` at 0x1234. -/
theorem debugger_first_witness :
    (consulted 0x1234).head? = some HTag.dbg :=
  (debugger_first 0x1234 (by decide)).2

/-- On the sound range only the debugger catch-all and the sound handler
are registered. -/
theorem consulted_sound_range (a : Nat) (h1 : 0xff10 ≤ a) (h2 : a ≤ 0xff3f) :
    consulted a = [HTag.dbg, HTag.sound] := by
  interval_cases a <;> decide

/-- C9: every write dispatched to the sound handler returns `Block` and
every read returns `PassThrough`; consequently a write anywhere in
0xFF10-0xFF3F leaves the backing RAM untouched, a subsequent read of the
same address returns the pre-write RAM byte, and in particular a written
byte that differs from that RAM byte is not read back. -/
theorem sound_handler_blocks (other : HTag → Nat → Nat → MemWrite)
    (otherR : HTag → Nat → MemRead) (s : BusSt) (a v : Nat)
    (h1 : 0xff10 ≤ a) (h2 : a ≤ 0xff3f) :
    (Inner.on_write s.tone a v).2.2 = MemWrite.Block ∧
    Inner.on_read s.tone a = MemRead.PassThrough ∧
    (write8 other s a v).ram = s.ram ∧
    read8 otherR (write8 other s a v) a = s.ram a ∧
    (v ≠ s.ram a → read8 otherR (write8 other s a v) a ≠ v) := by
  have hc := consulted_sound_range a h1 h2
  have hram : (write8 other s a v).ram = s.ram := by
    simp [write8, hc, handlerVote, Inner.on_write_blocks, MemWrite.isBlock]
  have hread : read8 otherR (write8 other s a v) a = s.ram a := by
    simp [read8, hc, readDispatch, handlerRead, Inner.on_read, hram]
  refine ⟨Inner.on_write_blocks s.tone a v, rfl, hram, hread, ?_⟩
  intro hne
  rw [hread]
  exact fun hcontra => hne hcontra.symm

/-- Closed instance of `sound_handler_blocks`: a write of 0x80 to 0xFF14
does not change the zeroed RAM at 0xFF14 as seen by a read. -/
theorem sound_handler_blocks_witness :
    read8 noOtherR (write8 noOther busSt0 0xff14 0x80) 0xff14 = busSt0.ram 0xff14 :=
  (sound_handler_blocks noOther noOtherR busSt0 0xff14 0x80
    (by decide) (by decide)).2.2.2.1

end Rgy
